import Mathlib

/-
Verification of the text-patching behaviour of the four scripts under
scripts/ of the rephlo-sites repository:
  scripts/apply-batch1-fix.py
  scripts/apply-frontend-fix.py
  scripts/apply-precise-fix.py
  scripts/apply-batch1-standardization.py
Documents are modelled as lists of characters; a file read with readlines
is modelled as a list of lines, each line a list of characters.  Each
script is embedded as the pure transformation it applies to the file
content, together with the list of file-write calls it performs.
-/

set_option maxRecDepth 100000

/-- Boolean test that the list p is a prefix of the list s,
used to embed substring search the way Python scans for a pattern. -/
def isPre : List Char → List Char → Bool
  | [], _ => true
  | _ :: _, [] => false
  | a :: as, b :: bs => decide (a = b) && isPre as bs

/-- Python substring membership test (the expression sub in s):
true when sub occurs contiguously somewhere in s. -/
def containsSub : List Char → List Char → Bool
  | [], sub => sub.isEmpty
  | c :: t, sub => isPre sub (c :: t) || containsSub t sub

/-- Scan core of Python str.count for a nonempty pattern: counts
non-overlapping occurrences left to right.  The last argument is the
number of characters still to be skipped after a match was consumed. -/
def countOccAux : List Char → List Char → Nat → Nat
  | [], _, _ => 0
  | _ :: t, old, Nat.succ k => countOccAux t old k
  | c :: t, old, 0 =>
    if isPre old (c :: t) then 1 + countOccAux t old (old.length - 1)
    else countOccAux t old 0

/-- Number of non-overlapping occurrences of old in s (Python str.count). -/
def countOcc (s old : List Char) : Nat := countOccAux s old 0

/-- Scan core of Python str.replace for a nonempty pattern: every
non-overlapping occurrence of old, left to right, is replaced by new.
The last argument is the number of characters of a consumed match that
remain to be dropped. -/
def pyReplaceAux : List Char → List Char → List Char → Nat → List Char
  | [], _, _, _ => []
  | _ :: t, old, new, Nat.succ k => pyReplaceAux t old new k
  | c :: t, old, new, 0 =>
    if isPre old (c :: t) then new ++ pyReplaceAux t old new (old.length - 1)
    else c :: pyReplaceAux t old new 0

/-- Python content.replace(old, new) for a nonempty pattern, as called in
scripts/apply-batch1-fix.py line 26 and scripts/apply-frontend-fix.py
line 31: replaces every non-overlapping occurrence. -/
def pyReplace (s old new : List Char) : List Char :=
  if old.isEmpty then s else pyReplaceAux s old new 0

/-- Scan core of re.sub with a literal pattern and a positive count:
the final argument is the number of replacements still allowed; once it
reaches zero the rest of the text is emitted unchanged. -/
def pyReplaceAtMostAux : List Char → List Char → List Char → Nat → Nat → List Char
  | [], _, _, _, _ => []
  | _ :: t, old, new, Nat.succ k, n => pyReplaceAtMostAux t old new k n
  | c :: t, _, _, 0, 0 => c :: t
  | c :: t, old, new, 0, Nat.succ m =>
    if isPre old (c :: t) then new ++ pyReplaceAtMostAux t old new (old.length - 1) m
    else c :: pyReplaceAtMostAux t old new 0 (Nat.succ m)

/-- re.sub(pattern, new, s, count=n) for a regex that denotes a literal
string and a positive n, as called in
scripts/apply-batch1-standardization.py line 40 with count=2: replaces
at most the first n occurrences. -/
def pyReplaceAtMost (s old new : List Char) (n : Nat) : List Char :=
  if old.isEmpty then s else pyReplaceAtMostAux s old new 0 n

/-- Python whitespace test, covering the characters str.strip removes
for the ASCII inputs handled by the scripts. -/
def isPySpace (c : Char) : Bool :=
  decide (c = ' ') || decide (c = '\t') || decide (c = '\n') ||
  decide (c = '\r') || decide (c = '\x0b') || decide (c = '\x0c')

/-- Python line.strip(): removes leading and trailing whitespace. -/
def pyStrip (l : List Char) : List Char :=
  ((l.dropWhile isPySpace).reverse.dropWhile isPySpace).reverse

/-- The old response block of apply-batch1-fix.py, lines 12 to 15. -/
def batch1Old : List Char :=
  ("      res.status(200).json(\x7b\n" ++
   "        status: \x27success\x27,\n" ++
   "        data: result,\n" ++
   "      \x7d);").toList

/-- The new response block of apply-batch1-fix.py, lines 17 to 24. -/
def batch1New : List Char :=
  ("      // Standard response format: flat data with optional metadata\n" ++
   "      res.status(200).json(\x7b\n" ++
   "        status: \x27success\x27,\n" ++
   "        data: result.model,\n" ++
   "        meta: \x7b\n" ++
   "          auditLog: result.auditLog,\n" ++
   "        \x7d,\n" ++
   "      \x7d);").toList

/-- The old block of apply-frontend-fix.py, lines 10 to 18. -/
def frontendOld : List Char :=
  ("    const response = await apiClient.patch<\x7b\n" ++
   "      status: string;\n" ++
   "      data: \x7b model: ModelTierInfo; auditLog: any \x7d;\n" ++
   "    \x7d>(\n" ++
   "      `/admin/models/$\x7bmodelId\x7d/tier`,\n" ++
   "      data\n" ++
   "    );\n" ++
   "    // Backend returns \x7b model: \x7b...\x7d, auditLog: \x7b...\x7d \x7d, extract model only\n" ++
   "    return response.data.data.model;").toList

/-- The new block of apply-frontend-fix.py, lines 20 to 29. -/
def frontendNew : List Char :=
  ("    const response = await apiClient.patch<\x7b\n" ++
   "      status: string;\n" ++
   "      data: ModelTierInfo;\n" ++
   "      meta?: \x7b auditLog: any \x7d;\n" ++
   "    \x7d>(\n" ++
   "      `/admin/models/$\x7bmodelId\x7d/tier`,\n" ++
   "      data\n" ++
   "    );\n" ++
   "    // Backend returns flat data\n" ++
   "    return response.data.data;").toList

/-- The literal string denoted by old_pattern_1 of
apply-batch1-standardization.py, lines 25 to 28, once the regex escapes
are removed; every metacharacter in the source pattern is escaped, so
the regex matches exactly this string. -/
def old_pattern_1 : List Char :=
  ("      res.status(200).json(\x7b\n" ++
   "        status: \x27success\x27,\n" ++
   "        data: result,\n" ++
   "      \x7d);").toList

/-- new_code_1 of apply-batch1-standardization.py, lines 30 to 37. -/
def new_code_1 : List Char :=
  ("      // Standard response format: flat data with optional metadata\n" ++
   "      res.status(200).json(\x7b\n" ++
   "        status: \x27success\x27,\n" ++
   "        data: result.model,\n" ++
   "        meta: \x7b\n" ++
   "          auditLog: result.auditLog,\n" ++
   "        \x7d,\n" ++
   "      \x7d);").toList

/-- A fixed-length regex element: a literal character that must match
itself, or a bare dot wildcard matching any single character other than
newline.  These are the only regex constructs the standardization
script's frontend pattern uses. -/
def lit (s : String) : List (Option Char) := s.toList.map some

/-- Three consecutive bare dot wildcards, one per dot of a brace group
in the pattern's comment line. -/
def dot3 : List (Option Char) := [none, none, none]

/-- Test that a fixed-length regex pattern matches at the start of s:
a literal element must equal the character, a wildcard element matches
any character other than newline (Python re dot semantics without
DOTALL). -/
def rxPre : List (Option Char) → List Char → Bool
  | [], _ => true
  | _ :: _, [] => false
  | some a :: ps, b :: bs => decide (a = b) && rxPre ps bs
  | none :: ps, b :: bs => decide (b ≠ '\n') && rxPre ps bs

/-- Scan core counting non-overlapping matches of a fixed-length regex,
leftmost first; the last argument is the number of characters of a
consumed match still to be skipped. -/
def rxCountAux : List Char → List (Option Char) → Nat → Nat
  | [], _, _ => 0
  | _ :: t, pat, Nat.succ k => rxCountAux t pat k
  | c :: t, pat, 0 =>
    if rxPre pat (c :: t) then 1 + rxCountAux t pat (pat.length - 1)
    else rxCountAux t pat 0

/-- Number of non-overlapping matches of the fixed-length regex in s. -/
def rxCount (s : List Char) (pat : List (Option Char)) : Nat := rxCountAux s pat 0

/-- Scan core of re.sub for a nonempty fixed-length pattern: every
non-overlapping leftmost match is replaced by new. -/
def rxReplaceAux : List Char → List (Option Char) → List Char → Nat → List Char
  | [], _, _, _ => []
  | _ :: t, pat, new, Nat.succ k => rxReplaceAux t pat new k
  | c :: t, pat, new, 0 =>
    if rxPre pat (c :: t) then new ++ rxReplaceAux t pat new (pat.length - 1)
    else c :: rxReplaceAux t pat new 0

/-- re.sub(pattern, new, s) with the default count, for a nonempty
fixed-length pattern: replaces every non-overlapping leftmost match. -/
def rxReplace (s : List Char) (pat : List (Option Char)) (new : List Char) : List Char :=
  if pat.isEmpty then s else rxReplaceAux s pat new 0

/-- The regex old_pattern of apply-batch1-standardization.py, lines 58
to 66.  Every metacharacter in the source pattern is escaped except the
three dots inside each brace group of its comment line, which are bare
and therefore wildcards; the pattern is a fixed-length sequence of
literal characters with two runs of three any-character-but-newline
wildcards.  (Note: unlike apply-frontend-fix.py, its first line carries
no leading indentation.) -/
def std_frontend_old : List (Option Char) :=
  lit ("const response = await apiClient.patch<\x7b\n" ++
   "      status: string;\n" ++
   "      data: \x7b model: ModelTierInfo; auditLog: any \x7d;\n" ++
   "    \x7d>(\n" ++
   "      `/admin/models/$\x7bmodelId\x7d/tier`,\n" ++
   "      data\n" ++
   "    );\n" ++
   "    // Backend returns \x7b model: \x7b") ++ dot3 ++
  lit ("\x7d, auditLog: \x7b") ++ dot3 ++
  lit ("\x7d \x7d, extract model only\n" ++
   "    return response.data.data.model;")

/-- new_code of apply-batch1-standardization.py, lines 68 to 77. -/
def std_frontend_new : List Char :=
  ("const response = await apiClient.patch<\x7b\n" ++
   "      status: string;\n" ++
   "      data: ModelTierInfo;\n" ++
   "      meta?: \x7b auditLog: any \x7d;\n" ++
   "    \x7d>(\n" ++
   "      `/admin/models/$\x7bmodelId\x7d/tier`,\n" ++
   "      data\n" ++
   "    );\n" ++
   "    // Backend returns flat data\n" ++
   "    return response.data.data;").toList

/-- Content transformation of apply-batch1-fix.py line 26. -/
def applyBatch1Fix (content : List Char) : List Char :=
  pyReplace content batch1Old batch1New

/-- File writes performed by apply-batch1-fix.py: a single unconditional
write of the replaced content (lines 28 to 29). -/
def applyBatch1FixWrites (content : List Char) : List (List Char) :=
  [applyBatch1Fix content]

/-- Content transformation of apply-frontend-fix.py line 31. -/
def applyFrontendFix (content : List Char) : List Char :=
  pyReplace content frontendOld frontendNew

/-- File writes performed by apply-frontend-fix.py: a single
unconditional write of the replaced content (lines 33 to 34). -/
def applyFrontendFixWrites (content : List Char) : List (List Char) :=
  [applyFrontendFix content]

/-- Start marker substring checked by apply-precise-fix.py line 18. -/
def updPat : List Char := ("updateModelTier = async").toList

/-- Start marker substring checked by apply-precise-fix.py line 24. -/
def revPat : List Char := ("revertTierChange = async").toList

/-- Anchor substring checked by apply-precise-fix.py line 30. -/
def anchorPat : List Char := ("res.status(200).json(\x7b").toList

/-- The end marker text compared against line.strip() in
apply-precise-fix.py lines 20 and 26. -/
def closeBraceSemi : List Char := ("\x7d;").toList

/-- The eight replacement lines appended by apply-precise-fix.py,
lines 32 to 39. -/
def repl8 : List (List Char) :=
  [ ("      // Standard response format: flat data with optional metadata\n").toList
  , ("      res.status(200).json(\x7b\n").toList
  , ("        status: \x27success\x27,\n").toList
  , ("        data: result.model,\n").toList
  , ("        meta: \x7b\n").toList
  , ("          auditLog: result.auditLog,\n").toList
  , ("        \x7d,\n").toList
  , ("      \x7d);\n").toList ]

/-- Flag update of one loop iteration of apply-precise-fix.py,
lines 17 to 27: the first component is in_update_model_tier, the second
in_revert_tier_change.  A line containing a start marker sets its flag;
otherwise, while the flag is set, a line stripping to the closing brace
text clears it. -/
def stepFlags (u r : Bool) (line : List Char) : Bool × Bool :=
  ( if containsSub line updPat then true
    else if u && decide (pyStrip line = closeBraceSemi) then false else u
  , if containsSub line revPat then true
    else if r && decide (pyStrip line = closeBraceSemi) then false else r )

/-- Replacement trigger of apply-precise-fix.py line 30, evaluated with
the flags already updated for the current line: some flag is set and the
line contains the anchor substring. -/
def fires (u r : Bool) (line : List Char) : Bool :=
  ((stepFlags u r line).1 || (stepFlags u r line).2) && containsSub line anchorPat

/-- Main loop of apply-precise-fix.py, lines 14 to 45.  The final
argument is the number of lines still to be skipped after a replacement
(the i plus 4 jump consumes the anchor line and the next three lines
without examining them); skipped lines are neither emitted nor allowed
to update the flags, exactly as in the source. -/
def goAux : List (List Char) → Bool → Bool → Nat → List (List Char)
  | [], _, _, _ => []
  | _ :: ls, u, r, Nat.succ k => goAux ls u r k
  | l :: ls, u, r, 0 =>
    if fires u r l then
      repl8 ++ goAux ls (stepFlags u r l).1 (stepFlags u r l).2 3
    else
      l :: goAux ls (stepFlags u r l).1 (stepFlags u r l).2 0

/-- Content transformation of one run of apply-precise-fix.py: both
flags start false and no skip is pending. -/
def applyPreciseFix (ls : List (List Char)) : List (List Char) :=
  goAux ls false false 0

/-- File writes performed by apply-precise-fix.py: a single
unconditional writelines of the output lines (lines 47 to 48). -/
def applyPreciseFixWrites (ls : List (List Char)) : List (List (List Char)) :=
  [applyPreciseFix ls]

/-- True when no line of the list triggers the replacement branch,
threading the flag state from line to line. -/
def noFire : Bool → Bool → List (List Char) → Bool
  | _, _, [] => true
  | u, r, l :: ls =>
    !(fires u r l) && noFire (stepFlags u r l).1 (stepFlags u r l).2 ls

/-- Flag state after scanning a list of lines. -/
def flagsAfter : Bool → Bool → List (List Char) → Bool × Bool
  | u, r, [] => (u, r)
  | u, r, l :: ls => flagsAfter (stepFlags u r l).1 (stepFlags u r l).2 ls

/-- Content transformation of update_backend_controller in
apply-batch1-standardization.py, lines 15 to 46: re.sub of the literal
pattern with count 2. -/
def update_backend_controller (content : List Char) : List Char :=
  pyReplaceAtMost content old_pattern_1 new_code_1 2

/-- Content transformation of update_frontend_api_client in
apply-batch1-standardization.py, lines 48 to 85: re.sub of the
fixed-length regex pattern (literal characters plus the six bare dot
wildcards of the comment line) with the default count, which in Python
replaces every match. -/
def update_frontend_api_client (content : List Char) : List Char :=
  rxReplace content std_frontend_old std_frontend_new

/-- Observable result of main in apply-batch1-standardization.py,
lines 87 to 117: the returned exit code together with the write calls
each update function performs.  Both updates run unconditionally and
each writes its file exactly once; the except branch only triggers on a
runtime exception, which the pure content level never raises, so the
returned code is 0. -/
structure MainRun where
  exitCode : Nat
  backendWrites : List (List Char)
  frontendWrites : List (List Char)

/-- The run of main on given backend and frontend file contents. -/
def mainRun (backendContent frontendContent : List Char) : MainRun :=
  { exitCode := 0
  , backendWrites := [update_backend_controller backendContent]
  , frontendWrites := [update_frontend_api_client frontendContent] }

/-- Test line: an updateModelTier method header. -/
def methodStartLine : List Char :=
  ("  updateModelTier = async (req, res) => \x7b\n").toList

/-- Test line: a second updateModelTier method header, matching the same
start marker. -/
def methodStartLine2 : List Char :=
  ("  updateModelTier = async (request, response) => \x7b\n").toList

/-- Test line: opening line of a nested arrow function inside a method. -/
def helperOpenLine : List Char :=
  ("    const applyChange = () => \x7b\n").toList

/-- Test line: closing line of the nested arrow function; it strips to
the same text as a method closing line. -/
def helperCloseLine : List Char := ("    \x7d;\n").toList

/-- Test line: the anchor line of the old response block. -/
def anchorJsonLine : List Char := ("      res.status(200).json(\x7b\n").toList

/-- Test line: second line of the old response block. -/
def oldStatusLine : List Char := ("        status: \x27success\x27,\n").toList

/-- Test line: third line of the old response block. -/
def oldDataLine : List Char := ("        data: result,\n").toList

/-- Test line: fourth line of the old response block. -/
def oldCloseLine : List Char := ("      \x7d);\n").toList

/-- Test line: closing line of a method. -/
def methodCloseLine : List Char := ("  \x7d;\n").toList

/-- Test document: one updateModelTier method containing the old
response block. -/
def demoDoc : List (List Char) :=
  [methodStartLine, anchorJsonLine, oldStatusLine, oldDataLine,
   oldCloseLine, methodCloseLine]

/-- Test document: two regions matching the same start marker, each
containing the old response block. -/
def twoRegionDoc : List (List Char) :=
  [methodStartLine, anchorJsonLine, oldStatusLine, oldDataLine,
   oldCloseLine, methodCloseLine,
   methodStartLine2, anchorJsonLine, oldStatusLine, oldDataLine,
   oldCloseLine, methodCloseLine]

/-- Test document: a method whose nested construct closes with a line
stripping to the end marker before the anchor line appears. -/
def nestedDoc : List (List Char) :=
  [methodStartLine, helperOpenLine, helperCloseLine, anchorJsonLine,
   oldStatusLine, oldDataLine, oldCloseLine, methodCloseLine]

/-- Test document: a start marker whose region is never closed. -/
def untermDoc : List (List Char) :=
  [methodStartLine, anchorJsonLine, oldStatusLine, oldDataLine,
   oldCloseLine]

/-- Test content: filler text between two copies of the old block. -/
def sepText : List Char := ("\nconsole.log(counter);\n").toList

/-- Test content containing the batch1 pattern twice. -/
def doc2 : List Char := batch1Old ++ sepText ++ batch1Old

/-- Test content containing the batch1 pattern three times. -/
def doc3 : List Char := batch1Old ++ sepText ++ batch1Old ++ sepText ++ batch1Old

/-- Test content containing neither the old nor the new pattern of any
script, in the shape of the diverged block from the spec example. -/
def otherDoc : List Char := ("      res.ok(\x7b data: otherValue \x7d);\n").toList

/-- Test content: the frontend block with other three-character texts in
the comment's brace groups.  The apply-frontend-fix.py literal does not
occur in it, but the standardization regex matches it, because the bare
dots are wildcards. -/
def variantFrontendDoc : List Char :=
  ("const response = await apiClient.patch<\x7b\n" ++
   "      status: string;\n" ++
   "      data: \x7b model: ModelTierInfo; auditLog: any \x7d;\n" ++
   "    \x7d>(\n" ++
   "      `/admin/models/$\x7bmodelId\x7d/tier`,\n" ++
   "      data\n" ++
   "    );\n" ++
   "    // Backend returns \x7b model: \x7bxyz\x7d, auditLog: \x7babc\x7d \x7d, extract model only\n" ++
   "    return response.data.data.model;").toList

theorem isPre_iff (p : List Char) : ∀ s, isPre p s = true ↔ ∃ t, p ++ t = s := by
  induction p with
  | nil => intro s; simp [isPre]
  | cons a as ih =>
    intro s
    cases s with
    | nil => simp [isPre]
    | cons b bs =>
      simp only [isPre, Bool.and_eq_true, decide_eq_true_eq, ih bs]
      constructor
      · rintro ⟨hab, t, ht⟩
        exact ⟨t, by rw [List.cons_append, ht, hab]⟩
      · rintro ⟨t, ht⟩
        rw [List.cons_append] at ht
        injection ht with h1 h2
        exact ⟨h1, t, h2⟩

theorem countOccAux_drop (old : List Char) (k : Nat) :
    ∀ s, countOccAux s old k = countOccAux (s.drop k) old 0 := by
  induction k with
  | zero => intro s; rw [List.drop_zero]
  | succ k ih =>
    intro s
    cases s with
    | nil => rfl
    | cons c t =>
      rw [show countOccAux (c :: t) old (k + 1) = countOccAux t old k from rfl,
        ih t, List.drop_succ_cons]

theorem pyReplaceAux_drop (old new : List Char) (k : Nat) :
    ∀ s, pyReplaceAux s old new k = pyReplaceAux (s.drop k) old new 0 := by
  induction k with
  | zero => intro s; rw [List.drop_zero]
  | succ k ih =>
    intro s
    cases s with
    | nil => rfl
    | cons c t =>
      rw [show pyReplaceAux (c :: t) old new (k + 1) = pyReplaceAux t old new k from rfl,
        ih t, List.drop_succ_cons]

theorem pyReplaceAux_of_count_zero (old new : List Char) :
    ∀ s, countOccAux s old 0 = 0 → pyReplaceAux s old new 0 = s := by
  intro s
  induction s with
  | nil => intro _; rfl
  | cons c t ih =>
    intro h
    cases hp : isPre old (c :: t) with
    | true =>
      exfalso
      rw [show countOccAux (c :: t) old 0
          = if isPre old (c :: t) then 1 + countOccAux t old (old.length - 1)
            else countOccAux t old 0 from rfl, if_pos hp] at h
      omega
    | false =>
      rw [show countOccAux (c :: t) old 0
          = if isPre old (c :: t) then 1 + countOccAux t old (old.length - 1)
            else countOccAux t old 0 from rfl, if_neg (by simp [hp])] at h
      rw [show pyReplaceAux (c :: t) old new 0
          = if isPre old (c :: t) then new ++ pyReplaceAux t old new (old.length - 1)
            else c :: pyReplaceAux t old new 0 from rfl, if_neg (by simp [hp]),
        ih h]

theorem pyReplace_of_countOcc_zero (s old new : List Char)
    (h : countOcc s old = 0) : pyReplace s old new = s := by
  unfold pyReplace
  split
  · rfl
  · exact pyReplaceAux_of_count_zero old new s h

theorem pyReplaceAtMostAux_of_count_zero (old new : List Char) :
    ∀ (s : List Char) (n : Nat), countOccAux s old 0 = 0 →
      pyReplaceAtMostAux s old new 0 n = s := by
  intro s
  induction s with
  | nil => intro n _; rfl
  | cons c t ih =>
    intro n h
    have hp : isPre old (c :: t) = false := by
      cases hp : isPre old (c :: t) with
      | false => rfl
      | true =>
        exfalso
        rw [show countOccAux (c :: t) old 0
            = if isPre old (c :: t) then 1 + countOccAux t old (old.length - 1)
              else countOccAux t old 0 from rfl, if_pos hp] at h
        omega
    have ht : countOccAux t old 0 = 0 := by
      rw [show countOccAux (c :: t) old 0
          = if isPre old (c :: t) then 1 + countOccAux t old (old.length - 1)
            else countOccAux t old 0 from rfl, if_neg (by simp [hp])] at h
      exact h
    cases n with
    | zero => rfl
    | succ m =>
      rw [show pyReplaceAtMostAux (c :: t) old new 0 (m + 1)
          = if isPre old (c :: t) then new ++ pyReplaceAtMostAux t old new (old.length - 1) m
            else c :: pyReplaceAtMostAux t old new 0 (m + 1) from rfl,
        if_neg (by simp [hp]), ih (m + 1) ht]

theorem pyReplaceAtMost_of_countOcc_zero (s old new : List Char) (n : Nat)
    (h : countOcc s old = 0) : pyReplaceAtMost s old new n = s := by
  unfold pyReplaceAtMost
  split
  · rfl
  · exact pyReplaceAtMostAux_of_count_zero old new s n h

theorem rxReplaceAux_of_count_zero (pat : List (Option Char)) (new : List Char) :
    ∀ s, rxCountAux s pat 0 = 0 → rxReplaceAux s pat new 0 = s := by
  intro s
  induction s with
  | nil => intro _; rfl
  | cons c t ih =>
    intro h
    cases hp : rxPre pat (c :: t) with
    | true =>
      exfalso
      rw [show rxCountAux (c :: t) pat 0
          = if rxPre pat (c :: t) then 1 + rxCountAux t pat (pat.length - 1)
            else rxCountAux t pat 0 from rfl, if_pos hp] at h
      omega
    | false =>
      rw [show rxCountAux (c :: t) pat 0
          = if rxPre pat (c :: t) then 1 + rxCountAux t pat (pat.length - 1)
            else rxCountAux t pat 0 from rfl, if_neg (by simp [hp])] at h
      rw [show rxReplaceAux (c :: t) pat new 0
          = if rxPre pat (c :: t) then new ++ rxReplaceAux t pat new (pat.length - 1)
            else c :: rxReplaceAux t pat new 0 from rfl, if_neg (by simp [hp]),
        ih h]

theorem rxReplace_of_rxCount_zero (s : List Char) (pat : List (Option Char))
    (new : List Char) (h : rxCount s pat = 0) : rxReplace s pat new = s := by
  unfold rxReplace
  split
  · rfl
  · exact rxReplaceAux_of_count_zero pat new s h

/-- The wildcard dots make the standardization regex strictly wider than
the literal of apply-frontend-fix.py: a document whose comment brace
groups hold other three-character texts contains no occurrence of the
literal, yet the regex matches it and update_frontend_api_client
rewrites it to the new block. -/
theorem rx_wildcard_variant_rewritten :
    countOcc variantFrontendDoc frontendOld = 0 ∧
    rxCount variantFrontendDoc std_frontend_old = 1 ∧
    update_frontend_api_client variantFrontendDoc = std_frontend_new := by
  decide

theorem pyReplaceAux_splice (old new : List Char) (hold : old ≠ []) :
    ∀ s, countOccAux s old 0 = 1 →
      ∃ pre post, s = pre ++ old ++ post ∧
        pyReplaceAux s old new 0 = pre ++ new ++ post := by
  intro s
  induction s with
  | nil => intro h; simp [countOccAux] at h
  | cons c t ih =>
    intro h
    cases hp : isPre old (c :: t) with
    | false =>
      rw [show countOccAux (c :: t) old 0
          = if isPre old (c :: t) then 1 + countOccAux t old (old.length - 1)
            else countOccAux t old 0 from rfl, if_neg (by simp [hp])] at h
      obtain ⟨pre, post, h1, h2⟩ := ih h
      refine ⟨c :: pre, post, ?_, ?_⟩
      · simp [h1]
      · rw [show pyReplaceAux (c :: t) old new 0
            = if isPre old (c :: t) then new ++ pyReplaceAux t old new (old.length - 1)
              else c :: pyReplaceAux t old new 0 from rfl, if_neg (by simp [hp]), h2]
        simp
    | true =>
      obtain ⟨post, hpost⟩ := (isPre_iff old (c :: t)).mp hp
      cases old with
      | nil => exact absurd rfl hold
      | cons o os =>
        rw [List.cons_append] at hpost
        injection hpost with ho ht
        have hlen : (o :: os).length - 1 = os.length := by simp
        have hcount : countOccAux t (o :: os) ((o :: os).length - 1)
            = countOccAux post (o :: os) 0 := by
          rw [hlen, countOccAux_drop, ← ht, List.drop_left]
        rw [show countOccAux (c :: t) (o :: os) 0
            = if isPre (o :: os) (c :: t)
              then 1 + countOccAux t (o :: os) ((o :: os).length - 1)
              else countOccAux t (o :: os) 0 from rfl, if_pos hp, hcount] at h
        have hzero : countOccAux post (o :: os) 0 = 0 := by omega
        refine ⟨[], post, ?_, ?_⟩
        · rw [List.nil_append, List.cons_append, ht, ho]
        · rw [show pyReplaceAux (c :: t) (o :: os) new 0
              = if isPre (o :: os) (c :: t)
                then new ++ pyReplaceAux t (o :: os) new ((o :: os).length - 1)
                else c :: pyReplaceAux t (o :: os) new 0 from rfl, if_pos hp,
            hlen, pyReplaceAux_drop, ← ht, List.drop_left,
            pyReplaceAux_of_count_zero _ _ _ hzero]
          simp

theorem goAux_append (pre rest : List (List Char)) : ∀ (u r : Bool),
    noFire u r pre = true →
    goAux (pre ++ rest) u r 0
      = pre ++ goAux rest (flagsAfter u r pre).1 (flagsAfter u r pre).2 0 := by
  induction pre with
  | nil => intro u r _; rfl
  | cons l ls ih =>
    intro u r h
    have hf : fires u r l = false := by
      cases hf : fires u r l with
      | false => rfl
      | true => simp [noFire, hf] at h
    have h2 : noFire (stepFlags u r l).1 (stepFlags u r l).2 ls = true := by
      simp [noFire, hf] at h
      exact h
    rw [List.cons_append,
      show goAux (l :: (ls ++ rest)) u r 0
        = if fires u r l
          then repl8 ++ goAux (ls ++ rest) (stepFlags u r l).1 (stepFlags u r l).2 3
          else l :: goAux (ls ++ rest) (stepFlags u r l).1 (stepFlags u r l).2 0 from rfl,
      if_neg (by simp [hf]), ih (stepFlags u r l).1 (stepFlags u r l).2 h2,
      show flagsAfter u r (l :: ls)
        = flagsAfter (stepFlags u r l).1 (stepFlags u r l).2 ls from rfl,
      List.cons_append]

theorem goAux_fire (l : List Char) (ls : List (List Char)) (u r : Bool)
    (h : fires u r l = true) :
    goAux (l :: ls) u r 0
      = repl8 ++ goAux ls (stepFlags u r l).1 (stepFlags u r l).2 3 := by
  rw [show goAux (l :: ls) u r 0
      = if fires u r l
        then repl8 ++ goAux ls (stepFlags u r l).1 (stepFlags u r l).2 3
        else l :: goAux ls (stepFlags u r l).1 (stepFlags u r l).2 0 from rfl,
    if_pos h]

/-- C1 counterexample: the window-replace script is not idempotent.  The
replacement block inserted by apply-precise-fix.py itself contains the
anchor substring, so on a document holding one patched method a second
run fires again and produces different content than the first run. -/
theorem preciseFix_second_run_differs :
    applyPreciseFix demoDoc = [methodStartLine] ++ repl8 ++ [methodCloseLine] ∧
    applyPreciseFix (applyPreciseFix demoDoc) ≠ applyPreciseFix demoDoc := by
  decide

/-- C1 (amended): the replace-all scripts are idempotent in content
exactly when the old pattern no longer occurs in the once-patched
result: a second run of the apply-batch1-fix.py transformation then
returns the patched content unchanged.  The window-replace script has no
such guarantee, and no script reports Applied or AlreadyApplied. -/
theorem applyBatch1Fix_idem_when_pattern_gone (s : List Char)
    (h : countOcc (applyBatch1Fix s) batch1Old = 0) :
    applyBatch1Fix (applyBatch1Fix s) = applyBatch1Fix s :=
  pyReplace_of_countOcc_zero _ _ _ h

/-- C1 witness: on a document equal to the old block, the first run
produces the new block, the pattern is gone, and a second run is the
identity. -/
theorem applyBatch1Fix_idem_when_pattern_gone_witness :
    countOcc (applyBatch1Fix batch1Old) batch1Old = 0 ∧
    applyBatch1Fix (applyBatch1Fix batch1Old) = applyBatch1Fix batch1Old :=
  ⟨by decide, applyBatch1Fix_idem_when_pattern_gone batch1Old (by decide)⟩

/-- C2 counterexample: on a document containing the matcher pattern
twice, apply-batch1-fix.py does not refuse: content.replace rewrites
both occurrences and the written content differs from the original, so
no AmbiguousMatch outcome and no untouched file exist in the code. -/
theorem batch1Fix_multiple_occurrences_all_replaced :
    countOcc doc2 batch1Old = 2 ∧
    applyBatch1Fix doc2 = batch1New ++ sepText ++ batch1New ∧
    applyBatch1Fix doc2 ≠ doc2 := by
  decide

/-- C2 (amended): with the pattern occurring more than once, the scripts
replace rather than refuse: content.replace rewrites every occurrence,
and the re.sub call of apply-batch1-standardization.py with count=2
rewrites exactly the first two, as shown on a three-occurrence
document. -/
theorem replace_semantics_on_three_occurrences :
    applyBatch1Fix doc3 = batch1New ++ sepText ++ batch1New ++ sepText ++ batch1New ∧
    update_backend_controller doc3
      = batch1New ++ sepText ++ batch1New ++ sepText ++ batch1Old := by
  decide

/-- C3 counterexample: on a document where the matcher pattern and the
replacement are both absent, apply-batch1-fix.py raises no NotFound
outcome: the transformation is the identity and the file is still
written, the run ending on its success path. -/
theorem absent_pattern_silently_skipped :
    countOcc otherDoc batch1Old = 0 ∧
    countOcc otherDoc batch1New = 0 ∧
    applyBatch1FixWrites otherDoc = [otherDoc] := by
  decide

/-- C3 (amended): when the matcher pattern is absent the script leaves
the content unchanged but still writes the file and reports success;
the divergence is silently skipped, and no NotFound outcome exists. -/
theorem absent_pattern_writes_content_unchanged (s : List Char)
    (h : countOcc s batch1Old = 0) :
    applyBatch1FixWrites s = [s] := by
  unfold applyBatch1FixWrites applyBatch1Fix
  rw [pyReplace_of_countOcc_zero _ _ _ h]

/-- C3 witness: the diverged block from the spec example contains
neither pattern, and the write carries it through unchanged. -/
theorem absent_pattern_writes_content_unchanged_witness :
    countOcc otherDoc batch1Old = 0 ∧ applyBatch1FixWrites otherDoc = [otherDoc] :=
  ⟨by decide, absent_pattern_writes_content_unchanged otherDoc (by decide)⟩

/-- C4 counterexample: the line scan does not stop after the first
located region.  On a document with two regions matching the same start
marker, the anchors of both regions are replaced; the result is not the
document with only the first region patched. -/
theorem second_scope_region_also_patched :
    applyPreciseFix twoRegionDoc
      = [methodStartLine] ++ repl8 ++ [methodCloseLine, methodStartLine2]
          ++ repl8 ++ [methodCloseLine] ∧
    applyPreciseFix twoRegionDoc
      ≠ [methodStartLine] ++ repl8 ++ [methodCloseLine, methodStartLine2,
          anchorJsonLine, oldStatusLine, oldDataLine, oldCloseLine,
          methodCloseLine] := by
  decide

/-- C4 (amended): each region is delimited by the first start line and
the first subsequent end line, but scanning never stops: any prefix of
lines that triggers no replacement passes through unchanged and the scan
continues on the rest with the flag state the prefix left behind, so
regions after the first closed one are located and patched too. -/
theorem scan_continues_past_silent_prefix (pre rest : List (List Char))
    (u r : Bool) (h : noFire u r pre = true) :
    goAux (pre ++ rest) u r 0
      = pre ++ goAux rest (flagsAfter u r pre).1 (flagsAfter u r pre).2 0 :=
  goAux_append pre rest u r h

/-- C4 witness: after a complete first region (start line then close
line), the scan proceeds into a second region matching the same
marker. -/
theorem scan_continues_past_silent_prefix_witness :
    noFire false false [methodStartLine, methodCloseLine] = true ∧
    goAux ([methodStartLine, methodCloseLine]
        ++ [methodStartLine2, anchorJsonLine, oldStatusLine, oldDataLine,
            oldCloseLine, methodCloseLine]) false false 0
      = [methodStartLine, methodCloseLine]
          ++ goAux [methodStartLine2, anchorJsonLine, oldStatusLine,
              oldDataLine, oldCloseLine, methodCloseLine]
            (flagsAfter false false [methodStartLine, methodCloseLine]).1
            (flagsAfter false false [methodStartLine, methodCloseLine]).2 0 :=
  ⟨by decide, scan_continues_past_silent_prefix _ _ false false (by decide)⟩

/-- C5: in window-replace mode, when a line fires (its updated flags put
it in scope and it contains the anchor substring), exactly the anchor
line and the following three lines are removed, the eight fixed
replacement lines are inserted verbatim at that position with no
re-indentation, every preceding line passes through unchanged, and the
scan continues on the remaining tail. -/
theorem window_replace_exact_window (pre tail : List (List Char))
    (a w x y : List Char) (u r : Bool)
    (h1 : noFire u r pre = true)
    (h2 : fires (flagsAfter u r pre).1 (flagsAfter u r pre).2 a = true) :
    goAux (pre ++ a :: w :: x :: y :: tail) u r 0
      = pre ++ repl8
          ++ goAux tail
              (stepFlags (flagsAfter u r pre).1 (flagsAfter u r pre).2 a).1
              (stepFlags (flagsAfter u r pre).1 (flagsAfter u r pre).2 a).2 0 := by
  rw [goAux_append pre _ u r h1, goAux_fire a _ _ _ h2,
    show goAux (w :: x :: y :: tail)
        (stepFlags (flagsAfter u r pre).1 (flagsAfter u r pre).2 a).1
        (stepFlags (flagsAfter u r pre).1 (flagsAfter u r pre).2 a).2 3
      = goAux tail
          (stepFlags (flagsAfter u r pre).1 (flagsAfter u r pre).2 a).1
          (stepFlags (flagsAfter u r pre).1 (flagsAfter u r pre).2 a).2 0 from rfl,
    List.append_assoc]

/-- C5 witness: a method containing the old response block: the anchor
fires right after the start line, the four old lines disappear, the
replacement lines are inserted, and the closing line is scanned on. -/
theorem window_replace_exact_window_witness :
    noFire false false [methodStartLine] = true ∧
    fires (flagsAfter false false [methodStartLine]).1
      (flagsAfter false false [methodStartLine]).2 anchorJsonLine = true ∧
    goAux ([methodStartLine] ++ anchorJsonLine :: oldStatusLine :: oldDataLine
        :: oldCloseLine :: [methodCloseLine]) false false 0
      = [methodStartLine] ++ repl8
          ++ goAux [methodCloseLine]
              (stepFlags (flagsAfter false false [methodStartLine]).1
                (flagsAfter false false [methodStartLine]).2 anchorJsonLine).1
              (stepFlags (flagsAfter false false [methodStartLine]).1
                (flagsAfter false false [methodStartLine]).2 anchorJsonLine).2 0 :=
  ⟨by decide, by decide,
    window_replace_exact_window [methodStartLine] [methodCloseLine]
      anchorJsonLine oldStatusLine oldDataLine oldCloseLine false false
      (by decide) (by decide)⟩

/-- C6 counterexample: a document whose start marker is never followed
by an end marker is not rejected: the replacement still fires inside the
open scope and the unconditional write persists the changed content. -/
theorem unterminated_scope_file_still_written :
    applyPreciseFixWrites untermDoc = [[methodStartLine] ++ repl8] ∧
    [methodStartLine] ++ repl8 ≠ untermDoc := by
  decide

/-- C6 (amended): reaching end of document while still inside a scope is
not detected: no ScopeUnterminated failure exists, replacements made in
the open scope are kept, and the scan simply runs to the end of input.
After the start line, a firing anchor line consumes the next three lines
whatever they are, and processing continues with the scope flag still
set. -/
theorem unterminated_scope_patch_proceeds (a b c : List Char)
    (tail : List (List Char)) :
    goAux (methodStartLine :: anchorJsonLine :: a :: b :: c :: tail) false false 0
      = methodStartLine :: (repl8 ++ goAux tail true false 0) := rfl

/-- C7 counterexample: a pattern occurring exactly once whose
replacement recreates text at the splice boundary: replacing ab by a in
aabb gives aab, in which the old text ab still occurs and the new text a
occurs twice, against the claim that the old text is removed and the new
text appears exactly once. -/
theorem exact_once_boundary_recreation :
    countOcc (("aabb").toList) (("ab").toList) = 1 ∧
    pyReplace (("aabb").toList) (("ab").toList) (("a").toList) = ("aab").toList ∧
    containsSub (("aab").toList) (("ab").toList) = true ∧
    countOcc (("aab").toList) (("a").toList) = 2 := by
  decide

/-- C7 (amended): the splice and frame part holds: when the matcher
occurs exactly once, the result is the original document with the
replacement spliced in place of the matched span and every byte outside
the span unchanged; no guarantee is made on occurrences of the old or
new text in the result. -/
theorem exact_once_splice_decomposition (s old new : List Char)
    (hold : old ≠ []) (h : countOcc s old = 1) :
    ∃ pre post, s = pre ++ old ++ post ∧
      pyReplace s old new = pre ++ new ++ post := by
  have he : old.isEmpty = false := by
    cases old with
    | nil => exact absurd rfl hold
    | cons a as => rfl
  unfold pyReplace
  rw [if_neg (by simp [he])]
  exact pyReplaceAux_splice old new hold s h

/-- C7 witness: the pattern ab occurs once in uvabw and the replacement
is spliced in place. -/
theorem exact_once_splice_decomposition_witness :
    countOcc (("uvabw").toList) (("ab").toList) = 1 ∧
    ∃ pre post, ("uvabw").toList = pre ++ ("ab").toList ++ post ∧
      pyReplace (("uvabw").toList) (("ab").toList) (("XY").toList)
        = pre ++ ("XY").toList ++ post :=
  ⟨by decide, exact_once_splice_decomposition _ _ _ (by decide) (by decide)⟩

/-- C8 counterexample: main does not gate persistence or its exit code
on the rules having matched: on contents where neither pattern occurs
(a NotFound situation in the terms of the spec) it still writes both
files and returns exit code 0. -/
theorem main_exits_zero_without_any_match :
    countOcc otherDoc old_pattern_1 = 0 ∧
    rxCount otherDoc std_frontend_old = 0 ∧
    (mainRun otherDoc otherDoc).exitCode = 0 ∧
    (mainRun otherDoc otherDoc).backendWrites = [otherDoc] ∧
    (mainRun otherDoc otherDoc).frontendWrites = [otherDoc] := by
  decide

/-- C8 (amended): the runner tracks no per-rule outcomes: each update
writes its file exactly once, unconditionally, even with its pattern
matching nowhere (the unchanged content is rewritten), and the exit
code is 0 whenever no runtime exception occurs; only an exception such
as an IOError makes main return 1.  The frontend condition is absence
of a match of the regex (wildcard dots included), not merely of a
literal. -/
theorem mainRun_exit_zero_and_unconditional_writes (bc fc : List Char)
    (hb : countOcc bc old_pattern_1 = 0)
    (hf : rxCount fc std_frontend_old = 0) :
    (mainRun bc fc).exitCode = 0 ∧
    (mainRun bc fc).backendWrites = [bc] ∧
    (mainRun bc fc).frontendWrites = [fc] := by
  refine ⟨rfl, ?_, ?_⟩
  · show [pyReplaceAtMost bc old_pattern_1 new_code_1 2] = [bc]
    rw [pyReplaceAtMost_of_countOcc_zero _ _ _ _ hb]
  · show [rxReplace fc std_frontend_old std_frontend_new] = [fc]
    rw [rxReplace_of_rxCount_zero _ _ _ hf]

/-- C8 witness: a one-line content matched by neither pattern is written
back unchanged by both updates and the run exits 0. -/
theorem mainRun_exit_zero_and_unconditional_writes_witness :
    countOcc (("let y = 1;\n").toList) old_pattern_1 = 0 ∧
    rxCount (("let y = 1;\n").toList) std_frontend_old = 0 ∧
    ((mainRun (("let y = 1;\n").toList) (("let y = 1;\n").toList)).exitCode = 0 ∧
     (mainRun (("let y = 1;\n").toList) (("let y = 1;\n").toList)).backendWrites
       = [("let y = 1;\n").toList] ∧
     (mainRun (("let y = 1;\n").toList) (("let y = 1;\n").toList)).frontendWrites
       = [("let y = 1;\n").toList]) :=
  ⟨by decide, by decide,
    mainRun_exit_zero_and_unconditional_writes (("let y = 1;\n").toList)
      (("let y = 1;\n").toList) (by decide) (by decide)⟩

/-- C9: each script performs exactly one write of its target file,
unconditionally; and when its pattern is absent (for the line scanner,
when no line triggers a replacement) the transformation is the identity
and the identical content is still written rather than skipped. -/
theorem scripts_write_file_unconditionally (c : List Char)
    (ls : List (List Char)) :
    ((applyBatch1FixWrites c).length = 1 ∧
     (applyFrontendFixWrites c).length = 1 ∧
     (applyPreciseFixWrites ls).length = 1) ∧
    (countOcc c batch1Old = 0 → applyBatch1FixWrites c = [c]) ∧
    (countOcc c frontendOld = 0 → applyFrontendFixWrites c = [c]) ∧
    (noFire false false ls = true → applyPreciseFixWrites ls = [ls]) := by
  refine ⟨⟨rfl, rfl, rfl⟩, ?_, ?_, ?_⟩
  · intro h
    show [pyReplace c batch1Old batch1New] = [c]
    rw [pyReplace_of_countOcc_zero _ _ _ h]
  · intro h
    show [pyReplace c frontendOld frontendNew] = [c]
    rw [pyReplace_of_countOcc_zero _ _ _ h]
  · intro h
    show [goAux ls false false 0] = [ls]
    have hgo := goAux_append ls [] false false h
    rw [List.append_nil] at hgo
    rw [hgo,
      show goAux [] (flagsAfter false false ls).1 (flagsAfter false false ls).2 0
        = ([] : List (List Char)) from rfl,
      List.append_nil]

/-- C9 witness: the diverged block is written back unchanged by both
replace scripts, and a document with no marker lines is written back
unchanged by the line scanner. -/
theorem scripts_write_file_unconditionally_witness :
    applyBatch1FixWrites otherDoc = [otherDoc] ∧
    applyFrontendFixWrites otherDoc = [otherDoc] ∧
    applyPreciseFixWrites [helperOpenLine] = [[helperOpenLine]] :=
  ⟨(scripts_write_file_unconditionally otherDoc [helperOpenLine]).2.1 (by decide),
   (scripts_write_file_unconditionally otherDoc [helperOpenLine]).2.2.1 (by decide),
   (scripts_write_file_unconditionally otherDoc [helperOpenLine]).2.2.2 (by decide)⟩

/-- C10: the scope flag is cleared by the first subsequent line whose
stripped text equals the closing token, with no nesting awareness: the
start line sets the flag, the closing line of a nested construct clears
it, an anchor line scanned with both flags off does not fire, and so a
document whose anchor sits after such an inner closing line passes
through the scanner completely unchanged. -/
theorem nested_close_brace_ends_tracked_scope :
    flagsAfter false false [methodStartLine] = (true, false) ∧
    flagsAfter false false [methodStartLine, helperOpenLine, helperCloseLine]
      = (false, false) ∧
    fires false false anchorJsonLine = false ∧
    applyPreciseFix nestedDoc = nestedDoc := by
  decide
